import Mathlib

/-!
# A one-shot HTTPS client (`main.c`): shallow embedding and checked properties

The C program resolves a host, connects a TCP socket, runs a TLS handshake,
sends one `GET` request and prints the response until the peer closes.

Modelling conventions.

* A C `char` is a Lean `Char`; a C string (a `char *` argument) is the list of
  its characters before the terminating NUL.  Raw memory (the receive buffer
  and what follows it) is a list of characters that may contain NUL.
* `int` values are Lean `Int`s; no arithmetic in the program can overflow.
* Calls into libc / OpenSSL are not executed: the value each call returns is
  read from an environment record (`Env`), and every call is appended to a log
  of events, so that "what was attempted, in which order" is observable.
* Diagnostics are recorded by their format string; the text substituted for
  `%s` / `%i` by the C library (for instance `gai_strerror`) is not modelled.
-/

namespace Sockets

/-! ## Constants -/

/-- Size of the buffers of `get_req` and of the receive loop (`#define BUF_LEN 256`). -/
def BUF_LEN : Nat := 256

/-- Largest value of a C `int` (32 bits). -/
def INT_MAX : Int := 2147483647

/-! Result codes of `SSL_get_error`, with the values of `<openssl/ssl.h>`. -/

def SSL_ERROR_NONE : Int := 0
def SSL_ERROR_SSL : Int := 1
def SSL_ERROR_WANT_READ : Int := 2
def SSL_ERROR_WANT_WRITE : Int := 3
def SSL_ERROR_WANT_X509_LOOKUP : Int := 4
def SSL_ERROR_SYSCALL : Int := 5
def SSL_ERROR_ZERO_RETURN : Int := 6
def SSL_ERROR_WANT_CONNECT : Int := 7
def SSL_ERROR_WANT_ACCEPT : Int := 8
def SSL_ERROR_WANT_ASYNC : Int := 9
def SSL_ERROR_WANT_ASYNC_JOB : Int := 10
def SSL_ERROR_WANT_CLIENT_HELLO_CB : Int := 11

/-! ## `get_req` -/

/-- The text `snprintf` would produce for the format
`"GET %s HTTP/1.1 \r\nHost: %s \r\nConnection: close\r\n\r\n"` with the
arguments `endpt`, `host`, before any truncation. -/
def get_req_format (endpt host : List Char) : List Char :=
  "GET ".toList ++ endpt ++ " HTTP/1.1 \r\nHost: ".toList ++ host ++
    " \r\nConnection: close\r\n\r\n".toList

/-- The function `snprintf(buffer, size, ...)` stores at most `size - 1` characters of the
formatted text, then a NUL, and returns the length of the whole formatted text.
When that length does not fit an `int` it fails (`EOVERFLOW`) and returns a
negative value; what the buffer then holds is not specified, and `get_req`
does not use it.  The result is the pair (return value, string left in the
buffer). -/
def snprintf (size : Nat) (text : List Char) : Int × List Char :=
  if (text.length : Int) > INT_MAX then (-1, [])
  else ((text.length : Int), text.take (size - 1))

/-- The function `get_req`: formats the request into a fresh buffer of `BUF_LEN` bytes and
returns the buffer (`some` string), or `NULL` (`none`) when `snprintf` reports an
error. -/
def get_req (host endpt : List Char) : Option (List Char) :=
  let r := snprintf BUF_LEN (get_req_format endpt host)
  let err := r.1
  let buffer := r.2
  if err < 0 then none else some buffer

/-- The request as the specification words it (section 4.5): request line, `Host`
header, `Connection: close` header and blank line, each ended by a bare CRLF. -/
def spec_request (host path : List Char) : List Char :=
  "GET ".toList ++ path ++ " HTTP/1.1\r\n".toList ++ "Host: ".toList ++ host ++ "\r\n".toList ++
    "Connection: close\r\n".toList ++ "\r\n".toList

/-! ## `print_err_desc` -/

/-! The `switch` of `print_err_desc` has a `break` only after `case SSL_ERROR_NONE`.
Control entering at a label therefore runs every `fprintf` from that label to
the end of the switch.  `from_X` is the list of lines written when control
enters at label `X`, in source order. -/

def from_SSL : List String := ["err ssl\n"]
def from_SYSCALL : List String := "syscall err\n" :: from_SSL
def from_WANT_CLIENT_HELLO_CB : List String := "callback\n" :: from_SYSCALL
def from_WANT_ASYNC_JOB : List String := "async\n" :: from_WANT_CLIENT_HELLO_CB
def from_WANT_ASYNC : List String := "async issue\n" :: from_WANT_ASYNC_JOB
def from_WANT_X509_LOOKUP : List String := "x509 lookup\n" :: from_WANT_ASYNC
def from_WANT_ACCEPT : List String := "ssl_want_accept\n" :: from_WANT_X509_LOOKUP
def from_WANT_CONNECT : List String := "ssl_want_connect\n" :: from_WANT_ACCEPT
def from_WANT_WRITE : List String := "ssl_err_write\n" :: from_WANT_CONNECT
def from_WANT_READ : List String := "ssl_err_read\n" :: from_WANT_WRITE
def from_ZERO_RETURN : List String := "Peer has closed conn for writing\n" :: from_WANT_READ

/-- The function `print_err_desc`: the lines written to `stderr` for the code `err`. -/
def print_err_desc (err : Int) : List String :=
  if err = SSL_ERROR_NONE then []
  else if err = SSL_ERROR_ZERO_RETURN then from_ZERO_RETURN
  else if err = SSL_ERROR_WANT_READ then from_WANT_READ
  else if err = SSL_ERROR_WANT_WRITE then from_WANT_WRITE
  else if err = SSL_ERROR_WANT_CONNECT then from_WANT_CONNECT
  else if err = SSL_ERROR_WANT_ACCEPT then from_WANT_ACCEPT
  else if err = SSL_ERROR_WANT_X509_LOOKUP then from_WANT_X509_LOOKUP
  else if err = SSL_ERROR_WANT_ASYNC then from_WANT_ASYNC
  else if err = SSL_ERROR_WANT_ASYNC_JOB then from_WANT_ASYNC_JOB
  else if err = SSL_ERROR_WANT_CLIENT_HELLO_CB then from_WANT_CLIENT_HELLO_CB
  else if err = SSL_ERROR_SYSCALL then from_SYSCALL
  else if err = SSL_ERROR_SSL then from_SSL
  else []

/-! ## Events, world state and environment -/

/-- One observable step of the program: a library call with the value it
returned, or a piece of output. -/
inductive Ev
  | stderr (fmt : String)
  | stdout (bytes : List Char)
  | socket (i : Nat) (ret : Int)
  | connect (i : Nat) (fd : Int) (ret : Int)
  | close (fd : Int)
  | freeaddrinfo (nodes : Nat)
  | SSL_CTX_new (ok : Bool)
  | SSL_new (ok : Bool)
  | SSL_set_fd (fd : Int) (ret : Int)
  | SSL_connect (ret : Int)
  | SSL_get_error (ret : Int) (code : Int)
  | ERR_print_errors_fp
  | SSL_get_peer_certificate (ok : Bool)
  | malloc
  | free
  | SSL_write (bytes : List Char) (ret : Int)
  | SSL_read (ret : Int)
  | SSL_free
  | X509_free (nonnull : Bool)
  | SSL_CTX_free
  deriving DecidableEq, Repr

/-- The part of the process state the program acts on: the set of open
descriptors, the error condition the TLS session holds for its most recent
I/O call (what `SSL_get_error` consults), and the log of events so far. -/
structure World where
  fds : List Int
  ssl_error : Int
  log : List Ev
  deriving DecidableEq, Repr

/-- Append an event to the log. -/
def World.emit (w : World) (e : Ev) : World :=
  { w with log := w.log ++ [e] }

/-- Append several diagnostic lines to the log. -/
def World.emitLines (w : World) (ls : List String) : World :=
  { w with log := w.log ++ ls.map Ev.stderr }

/-- The kernel records a descriptor returned by a successful `socket()`. -/
def World.opened (w : World) (fd : Int) : World :=
  { w with fds := fd :: w.fds }

/-- The effect of `close(fd)`: the descriptor is no longer open. -/
def World.closed (w : World) (fd : Int) : World :=
  { w with fds := w.fds.filter (fun d => d ≠ fd), log := w.log ++ [Ev.close fd] }

/-- What the environment answers for one address candidate: the value returned
by `socket()` (a descriptor, or `-1` on failure) and the value returned by
`connect()` on that descriptor (`0`, or `-1` on failure). -/
structure Attempt where
  sock : Int
  conn : Int
  deriving DecidableEq, Repr

/-- A candidate on which both `socket()` and `connect()` succeed. -/
def Attempt.connects (a : Attempt) : Prop := a.sock ≠ -1 ∧ a.conn ≠ -1

instance (a : Attempt) : Decidable a.connects :=
  inferInstanceAs (Decidable (a.sock ≠ -1 ∧ a.conn ≠ -1))

/-- What the environment answers for one `SSL_read`: the return value, the bytes
stored at the start of the buffer (when the return value is positive), and the
error condition left in the session. -/
structure ReadOutcome where
  ret : Int
  data : List Char
  err : Int
  deriving DecidableEq, Repr

/-- The answers of libc, the kernel, the network and OpenSSL during one run.
The field `stack` is the memory that starts at the first byte of the local array
`buffer` of `ssl` and runs to the end of the readable stack, as it is when the
receive loop starts: its first `BUF_LEN` bytes are the array, not initialised
by the program, and the bytes after them are whatever follows the array. -/
structure Env where
  library_init : Int
  meth : Bool
  ctx : Bool
  ssl : Bool
  gai : Int
  res : List Attempt
  set_fd : Int
  connect : Int
  connect_err : Int
  cipher : List Char
  cert : Bool
  certname : Bool
  subject : List Char
  write : Int
  write_err : Int
  stack : List Char
  reads : List ReadOutcome
  deriving DecidableEq, Repr

/-- How a run of `ssl` ends: it returns a value, it performs an invalid memory
access (null dereference, read past the end of the readable memory), or it
waits for ever in `SSL_read`. -/
inductive Exit
  | ret (v : Int)
  | fault
  | blocked
  deriving DecidableEq, Repr

/-! ## `set_socket` -/

/-- The `while (res != NULL)` loop of `set_socket`.  `i` is the position of the
current candidate, `fd` the current value of the variable `fd`. -/
def set_socket_loop (i : Nat) (fd : Int) (w : World) : List Attempt → Int × World
  | [] => (fd, w.emit (.freeaddrinfo 0))
  | a :: rest =>
    let fd := a.sock
    let w := w.emit (.socket i fd)
    if fd = -1 then
      set_socket_loop (i + 1) fd (w.emit (.stderr "socket: \n")) rest
    else
      let w := w.opened fd
      let err := a.conn
      let w := w.emit (.connect i fd err)
      if err = -1 then
        set_socket_loop (i + 1) fd ((w.emit (.stderr "connect: \n")).closed fd) rest
      else
        (fd, w.emit (.freeaddrinfo (rest.length + 1)))

/-- The function `set_socket`: `gai` is the value returned by `getaddrinfo`, `res` the
candidate list it produced. -/
def set_socket (gai : Int) (res : List Attempt) (w : World) : Int × World :=
  let err := gai
  let fd : Int := -1
  if err ≠ 0 then
    (-1, w.emit (.stderr "getaddrinfo: %s\n"))
  else
    set_socket_loop 0 fd w res

/-! ## `ssl` -/

/-- OpenSSL's `SSL_get_error(ssl, ret)`: a positive `ret` is reported as
`SSL_ERROR_NONE` without looking further; otherwise the error condition of the
session is reported. -/
def SSL_get_error (w : World) (ret : Int) : Int :=
  if ret > 0 then SSL_ERROR_NONE else w.ssl_error

/-- What `printf("%s", p)` and `strlen(p)` read from the memory `mem` that starts at `p` and
runs to the end of the readable region: the characters before the first NUL,
wherever it lies, or an invalid access (`none`) when there is no NUL at all. -/
def cstr (mem : List Char) : Option (List Char) :=
  if '\x00' ∈ mem then some (mem.takeWhile (fun c => c ≠ '\x00')) else none

/-- The loop `while (SSL_read(ssl, buffer, BUF_LEN-1) > 0) printf("%s", buffer);`.
The argument `mem` is the memory from the first byte of `buffer` onwards (see
`Env`): `SSL_read` overwrites its first bytes, at most `BUF_LEN - 1` of them, and
`printf` reads from its start up to the first NUL, past the end of the array
when the array holds none.  Returns `none` as exit when the loop ends and
control continues after it. -/
def recv_loop (mem : List Char) (w : World) : List ReadOutcome → Option Exit × World
  | [] => (some .blocked, w)
  | r :: rest =>
    let w := { w.emit (.SSL_read r.ret) with ssl_error := r.err }
    if r.ret > 0 then
      let stored := r.data.take (BUF_LEN - 1)
      let mem := stored ++ mem.drop stored.length
      match cstr mem with
      | none => (some .fault, w)
      | some s => recv_loop mem (w.emit (.stdout s)) rest
    else
      (none, w)

/-- The function `ssl`. -/
def ssl (env : Env) (host endpt : List Char) (w : World) : Exit × World :=
  if env.library_init < 0 then
    (.ret (-1), w.emit (.stderr "Failed to init ossl library\n"))
  else if env.meth = false then
    (.ret (-1), w.emit (.stderr "Failed to negotiate ssl version\n"))
  else
    let w := w.emit (.SSL_CTX_new env.ctx)
    if env.ctx = false then
      (.ret (-1), w.emit (.stderr "SSL_CTX object creation failed\n"))
    else
      let w := w.emit (.SSL_new env.ssl)
      if env.ssl = false then
        (.ret (-1), w.emit (.stderr "Failed to create ssl struct\n"))
      else
        let r := set_socket env.gai env.res w
        let sock := r.1
        let w := r.2
        if sock ≤ 0 then
          (.ret (-1), w.emit (.stderr "Failed to create sock\n"))
        else
          let err := env.set_fd
          let w := w.emit (.SSL_set_fd sock err)
          if err = 0 then
            (.ret (-1), w.emit (.stderr "Failed to set sock to ssl struct\n"))
          else
            let err := env.connect
            let w := { w.emit (.SSL_connect err) with ssl_error := env.connect_err }
            if err ≤ 0 then
              let err := SSL_get_error w err
              let w := w.emit (.SSL_get_error env.connect err)
              let w := w.emit (.stderr "Error: SSL_connect\n")
              let w := w.emitLines (print_err_desc err)
              (.ret (-1), w.emit .ERR_print_errors_fp)
            else
              let w := w.emit (.stdout ("SSL connection using ".toList ++ env.cipher ++ "\n".toList))
              let w := w.emit (.SSL_get_peer_certificate env.cert)
              let w := if env.cert = false then w.emit (.stderr "Err no certificate from %s\n") else w
              -- `X509_get_subject_name(cert)` reads a field of `*cert`
              if env.cert = false then (.fault, w)
              else
                let w :=
                  if env.certname = false then w.emit (.stderr "Failed to get cert name\n")
                  else (w.emit (.stdout env.subject)).emit (.stdout "\n".toList)
                let w := w.emit .malloc
                match get_req host endpt with
                | none => (.fault, w.emit (.stderr "GET snprintf\n"))
                | some get =>
                  let err := env.write
                  let w := { w.emit (.SSL_write get err) with ssl_error := env.write_err }
                  if err ≤ 0 then
                    let err := SSL_get_error w err
                    let w := w.emit (.SSL_get_error env.write err)
                    let w := w.emit (.stderr "SSL_write: %i\n")
                    let w := w.emitLines (print_err_desc err)
                    (.ret (-1), w)
                  else
                    let w := w.emit .free
                    let l := recv_loop env.stack w env.reads
                    let w := l.2
                    match l.1 with
                    | some e => (e, w)
                    | none =>
                      let code := SSL_get_error w err
                      let w := w.emit (.SSL_get_error err code)
                      let w := w.emitLines (print_err_desc code)
                      let w := w.emit .SSL_free
                      let w := w.closed sock
                      let w := w.emit (.X509_free env.cert)
                      let w := w.emit .SSL_CTX_free
                      (.ret 1, w)

/-! ## Expected logs -/

/-- The events of a candidate that is tried and given up: a failed `socket()`, or
a created socket whose `connect()` fails and which is then closed. -/
def skip_events (i : Nat) (a : Attempt) : List Ev :=
  if a.sock = -1 then [.socket i a.sock, .stderr "socket: \n"]
  else [.socket i a.sock, .connect i a.sock a.conn, .stderr "connect: \n", .close a.sock]

/-- The events of a run of candidates that are all given up, the first of them at
position `i`. -/
def skip_log (i : Nat) : List Attempt → List Ev
  | [] => []
  | a :: rest => skip_events i a ++ skip_log (i + 1) rest

/-- The host name compiled into `main`. -/
def main_host : List Char := "api.fiscaldata.treasury.gov".toList

/-- The path compiled into `main`. -/
def main_endpt : List Char :=
  ("/services/api/fiscal_service/v1/accounting/od/schedules_fed_debt_daily_activity" ++
    "?filter=record_date:eq:2022-05-01").toList

/-- The bytes written to the standard output, in order. -/
def stdout_of : List Ev → List Char
  | [] => []
  | .stdout bytes :: es => bytes ++ stdout_of es
  | _ :: es => stdout_of es

/-! ## Scenarios -/

/-- The process state at program start: the three standard descriptors are open. -/
def world0 : World := ⟨[0, 1, 2], 0, []⟩

/-- A run in which everything succeeds: one candidate, connected as descriptor 3,
handshake and write succeed, the peer sends one chunk and closes. -/
def env_ok : Env where
  library_init := 1
  meth := true
  ctx := true
  ssl := true
  gai := 0
  res := [⟨3, 0⟩]
  set_fd := 1
  connect := 1
  connect_err := SSL_ERROR_NONE
  cipher := "TLS_AES_256_GCM_SHA384".toList
  cert := true
  certname := true
  subject := "CN=example.test".toList
  write := 59
  write_err := SSL_ERROR_NONE
  stack := List.replicate 256 '\x00'
  reads := [⟨5, "hello".toList, SSL_ERROR_NONE⟩, ⟨0, [], SSL_ERROR_ZERO_RETURN⟩]

/-- As `env_ok`, but the handshake fails with a protocol error. -/
def env_handshake_fails : Env :=
  { env_ok with connect := -1, connect_err := SSL_ERROR_SSL }

/-- As `env_ok`, but the first `SSL_read` fails with a transport error. -/
def env_read_fails : Env :=
  { env_ok with reads := [⟨-1, [], SSL_ERROR_SYSCALL⟩] }

/-- The peer sends `hello`, then `hi`, then closes. -/
def reads_hello_hi : List ReadOutcome :=
  [⟨5, "hello".toList, SSL_ERROR_NONE⟩, ⟨2, "hi".toList, SSL_ERROR_NONE⟩,
    ⟨0, [], SSL_ERROR_ZERO_RETURN⟩]

/-! ## Properties of `get_req` -/

/-- Claim C1, as the specification states it, fails: for host `h` and path `/` the
code returns a request with a space before the first two CRLFs, which is not
the byte sequence of section 4.5. -/
theorem get_req_differs_from_spec :
    get_req "h".toList "/".toList =
        some "GET / HTTP/1.1 \r\nHost: h \r\nConnection: close\r\n\r\n".toList ∧
      get_req "h".toList "/".toList ≠ some (spec_request "h".toList "/".toList) := by
  decide

/-- Claim C1, amended: whenever the formatted request and its terminating NUL fit
the `BUF_LEN`-byte buffer, `get_req` returns exactly
`GET <path> HTTP/1.1 \r\nHost: <host> \r\nConnection: close\r\n\r\n`: the request
of section 4.5 with one space before the CRLF of the request line and of the
`Host` line, and no other byte. -/
theorem get_req_exact (host endpt : List Char)
    (hfit : (get_req_format endpt host).length < BUF_LEN) :
    get_req host endpt =
      some ("GET ".toList ++ endpt ++ " HTTP/1.1 \r\n".toList ++ "Host: ".toList ++ host ++
        " \r\n".toList ++ "Connection: close\r\n".toList ++ "\r\n".toList) := by
  have hlen : (get_req_format endpt host).length ≤ BUF_LEN - 1 := by
    simp only [BUF_LEN] at hfit ⊢; omega
  have h1 : " HTTP/1.1 \r\nHost: ".toList = " HTTP/1.1 \r\n".toList ++ "Host: ".toList := by
    decide
  have h2 : " \r\nConnection: close\r\n\r\n".toList =
      " \r\n".toList ++ "Connection: close\r\n".toList ++ "\r\n".toList := by decide
  have hneg : ¬ ((get_req_format endpt host).length : Int) < 0 := by omega
  have hmax : ¬ ((get_req_format endpt host).length : Int) > INT_MAX := by
    simp only [BUF_LEN, INT_MAX] at hfit ⊢; omega
  simp only [get_req, snprintf, hmax, hneg, if_false, List.take_of_length_le hlen]
  simp only [get_req_format, h1, h2, List.append_assoc]

set_option maxRecDepth 100000 in
/-- A concrete instance of `get_req_exact`: the host and path compiled into `main`. -/
theorem get_req_exact_witness :
    (get_req_format main_endpt main_host).length < BUF_LEN ∧
      get_req main_host main_endpt =
        some ("GET ".toList ++ main_endpt ++ " HTTP/1.1 \r\n".toList ++ "Host: ".toList ++
          main_host ++ " \r\n".toList ++ "Connection: close\r\n".toList ++ "\r\n".toList) :=
  ⟨by decide, get_req_exact _ _ (by decide)⟩

set_option maxRecDepth 100000 in
/-- Claim C2 at a failing input: for a path of 301 characters the request returned by
`get_req` is the first 255 characters of the formatted text, `GET /aaa…a`; it
contains no CR at all, so it has no terminator and no header line. -/
theorem get_req_truncates :
    get_req "example.test".toList ('/' :: List.replicate 300 'a') =
        some ("GET /".toList ++ List.replicate 250 'a') ∧
      '\r' ∉ "GET /".toList ++ List.replicate 250 'a' ∧
      ¬ List.IsSuffix "\r\n\r\n".toList ("GET /".toList ++ List.replicate 250 'a') := by
  decide

/-! ## Properties of `print_err_desc` -/

/-- Claim C5 at failing inputs: `print_err_desc` writes two lines for
`SSL_ERROR_SYSCALL` (its own and the one of `SSL_ERROR_SSL`) and eleven lines
for `SSL_ERROR_ZERO_RETURN`; only `SSL_ERROR_NONE` and `SSL_ERROR_SSL` behave as
claimed. -/
theorem print_err_desc_falls_through :
    print_err_desc SSL_ERROR_SYSCALL = ["syscall err\n", "err ssl\n"] ∧
      print_err_desc SSL_ERROR_ZERO_RETURN =
        ["Peer has closed conn for writing\n", "ssl_err_read\n", "ssl_err_write\n",
          "ssl_want_connect\n", "ssl_want_accept\n", "x509 lookup\n", "async issue\n",
          "async\n", "callback\n", "syscall err\n", "err ssl\n"] ∧
      print_err_desc SSL_ERROR_NONE = [] ∧
      print_err_desc SSL_ERROR_SSL = ["err ssl\n"] := by
  decide

/-! ## Properties of `set_socket` -/

/-- Claim C4 at a failing input: one candidate whose socket is created as descriptor
`3` and whose `connect` fails.  `set_socket` closes descriptor `3` and then
returns `3`, not `-1`. -/
theorem set_socket_returns_closed_fd :
    (set_socket 0 [⟨3, -1⟩] ⟨[0, 1, 2], 0, []⟩).1 = 3 ∧
      (set_socket 0 [⟨3, -1⟩] ⟨[0, 1, 2], 0, []⟩).2.fds = [0, 1, 2] ∧
      (set_socket 0 [⟨3, -1⟩] ⟨[0, 1, 2], 0, []⟩).2.log =
        [.socket 0 3, .connect 0 3 (-1), .stderr "connect: \n", .close 3, .freeaddrinfo 0] := by
  decide

/-- One turn of the loop on a candidate for which `socket()` fails. -/
theorem set_socket_loop_socket_fails (i : Nat) (fd : Int) (w : World) (a : Attempt)
    (rest : List Attempt) (hs : a.sock = -1) :
    set_socket_loop i fd w (a :: rest) =
      set_socket_loop (i + 1) (-1)
        ((w.emit (.socket i (-1))).emit (.stderr "socket: \n")) rest := by
  simp only [set_socket_loop, hs, if_true]

/-- One turn of the loop on a candidate whose socket is created and whose `connect()` fails. -/
theorem set_socket_loop_connect_fails (i : Nat) (fd : Int) (w : World) (a : Attempt)
    (rest : List Attempt) (hs : a.sock ≠ -1) (hc : a.conn = -1) :
    set_socket_loop i fd w (a :: rest) =
      set_socket_loop (i + 1) a.sock
        (((((w.emit (.socket i a.sock)).opened a.sock).emit (.connect i a.sock (-1))).emit
          (.stderr "connect: \n")).closed a.sock) rest := by
  simp only [set_socket_loop, hs, if_false, hc, if_true]

/-- The turn of the loop on a candidate that connects. -/
theorem set_socket_loop_connects (i : Nat) (fd : Int) (w : World) (a : Attempt)
    (rest : List Attempt) (ha : a.connects) :
    set_socket_loop i fd w (a :: rest) =
      (a.sock, (((w.emit (.socket i a.sock)).opened a.sock).emit
        (.connect i a.sock a.conn)).emit (.freeaddrinfo (rest.length + 1))) := by
  obtain ⟨h1, h2⟩ := ha
  simp only [set_socket_loop, h1, h2, if_false]

/-- The loop on a list whose first connecting candidate is `a`: value returned and log. -/
theorem set_socket_loop_first (pre post : List Attempt) (a : Attempt)
    (hpre : ∀ b ∈ pre, ¬ b.connects) (ha : a.connects) :
    ∀ (i : Nat) (fd : Int) (w : World),
      (set_socket_loop i fd w (pre ++ a :: post)).1 = a.sock ∧
      (set_socket_loop i fd w (pre ++ a :: post)).2.log =
        w.log ++ skip_log i pre ++
          [.socket (i + pre.length) a.sock, .connect (i + pre.length) a.sock a.conn,
            .freeaddrinfo (post.length + 1)] := by
  induction pre with
  | nil =>
    intro i fd w
    rw [List.nil_append, set_socket_loop_connects i fd w a post ha]
    simp [World.emit, World.opened, skip_log]
  | cons b pre ih =>
    intro i fd w
    have hb : ¬ b.connects := hpre b (List.mem_cons_self _ _)
    have hpre' : ∀ c ∈ pre, ¬ c.connects := fun c hc => hpre c (List.mem_cons_of_mem _ hc)
    have harith : i + 1 + pre.length = i + (pre.length + 1) := by omega
    by_cases hs : b.sock = -1
    · rw [List.cons_append, set_socket_loop_socket_fails i fd w b _ hs]
      obtain ⟨h1, h2⟩ := ih hpre' (i + 1) (-1)
        ((w.emit (.socket i (-1))).emit (.stderr "socket: \n"))
      refine ⟨h1, ?_⟩
      rw [h2]
      simp [skip_log, skip_events, hs, World.emit, harith]
    · have hc : b.conn = -1 := by
        by_contra hc
        exact hb ⟨hs, hc⟩
      rw [List.cons_append, set_socket_loop_connect_fails i fd w b _ hs hc]
      obtain ⟨h1, h2⟩ := ih hpre' (i + 1) b.sock
        (((((w.emit (.socket i b.sock)).opened b.sock).emit (.connect i b.sock (-1))).emit
          (.stderr "connect: \n")).closed b.sock)
      refine ⟨h1, ?_⟩
      rw [h2]
      simp [skip_log, skip_events, hs, hc, World.emit, World.opened, World.closed, harith]

/-- Claim C3: when `getaddrinfo` succeeds and `a` is the first candidate on which both
`socket()` and `connect()` succeed, `set_socket` returns the descriptor created
for `a`; its log shows every earlier candidate tried and given up, in order,
then the socket and the connect of `a`, and no call for any later candidate. -/
theorem set_socket_first_success (pre post : List Attempt) (a : Attempt) (w : World)
    (hpre : ∀ b ∈ pre, ¬ b.connects) (ha : a.connects) :
    (set_socket 0 (pre ++ a :: post) w).1 = a.sock ∧
      (set_socket 0 (pre ++ a :: post) w).2.log =
        w.log ++ skip_log 0 pre ++
          [.socket pre.length a.sock, .connect pre.length a.sock a.conn,
            .freeaddrinfo (post.length + 1)] := by
  have h := set_socket_loop_first pre post a hpre ha 0 (-1) w
  simpa [set_socket] using h

/-- A concrete instance of `set_socket_first_success`: the first candidate has no
socket, the second does not connect, the third connects, the fourth is never
tried. -/
theorem set_socket_first_success_witness :
    (∀ b ∈ [(⟨-1, 0⟩ : Attempt), ⟨3, -1⟩], ¬ b.connects) ∧ (⟨3, 0⟩ : Attempt).connects ∧
      (set_socket 0 ([⟨-1, 0⟩, ⟨3, -1⟩] ++ ⟨3, 0⟩ :: [⟨4, 0⟩]) ⟨[0, 1, 2], 0, []⟩).1 = 3 ∧
      (set_socket 0 ([⟨-1, 0⟩, ⟨3, -1⟩] ++ ⟨3, 0⟩ :: [⟨4, 0⟩]) ⟨[0, 1, 2], 0, []⟩).2.log =
        [] ++ skip_log 0 [⟨-1, 0⟩, ⟨3, -1⟩] ++
          [.socket 2 3, .connect 2 3 0, .freeaddrinfo 2] :=
  ⟨by decide, by decide,
    set_socket_first_success [⟨-1, 0⟩, ⟨3, -1⟩] [⟨4, 0⟩] ⟨3, 0⟩ ⟨[0, 1, 2], 0, []⟩
      (by decide) (by decide)⟩

/-- Closing a descriptor that was just opened, and was not open before, restores
the set of open descriptors. -/
theorem filter_opened (fd : Int) (fds : List Int) (h : fd ∉ fds) :
    (fd :: fds).filter (fun d => d ≠ fd) = fds := by
  simp only [List.filter_cons, ne_eq, not_true_eq_false, decide_False, Bool.false_eq_true,
    if_false, List.filter_eq_self, decide_eq_true_eq]
  intro d hd e
  exact h (e ▸ hd)

/-- The open descriptors after the loop, when no descriptor handed out by
`socket()` was open before: the returned descriptor is added when some
candidate connects, and nothing changes when none does. -/
theorem set_socket_loop_fds (res : List Attempt) :
    ∀ (i : Nat) (fd : Int) (w : World), (∀ a ∈ res, a.sock ∉ w.fds) →
      ((∃ a ∈ res, a.connects) →
        (set_socket_loop i fd w res).2.fds = (set_socket_loop i fd w res).1 :: w.fds) ∧
      ((∀ a ∈ res, ¬ a.connects) → (set_socket_loop i fd w res).2.fds = w.fds) := by
  induction res with
  | nil =>
    intro i fd w _
    simp [set_socket_loop, World.emit]
  | cons b rest ih =>
    intro i fd w hfresh
    have hb : b.sock ∉ w.fds := hfresh b (List.mem_cons_self _ _)
    have hrest : ∀ a ∈ rest, a.sock ∉ w.fds := fun a ha => hfresh a (List.mem_cons_of_mem _ ha)
    by_cases hs : b.sock = -1
    · have hnb : ¬ b.connects := fun h => h.1 hs
      rw [set_socket_loop_socket_fails i fd w b rest hs]
      obtain ⟨ih1, ih2⟩ := ih (i + 1) (-1)
        ((w.emit (.socket i (-1))).emit (.stderr "socket: \n")) hrest
      constructor
      · rintro ⟨a, ha, hac⟩
        rcases List.mem_cons.mp ha with rfl | ha
        · exact absurd hac hnb
        · exact ih1 ⟨a, ha, hac⟩
      · intro hall
        exact ih2 fun a ha => hall a (List.mem_cons_of_mem _ ha)
    · by_cases hc : b.conn = -1
      · have hnb : ¬ b.connects := fun h => h.2 hc
        rw [set_socket_loop_connect_fails i fd w b rest hs hc]
        have hfds : (((((w.emit (.socket i b.sock)).opened b.sock).emit
            (.connect i b.sock (-1))).emit (.stderr "connect: \n")).closed b.sock).fds = w.fds := by
          simp only [World.emit, World.opened, World.closed]
          exact filter_opened b.sock w.fds hb
        obtain ⟨ih1, ih2⟩ := ih (i + 1) b.sock _ (by rw [hfds]; exact hrest)
        rw [hfds] at ih1 ih2
        constructor
        · rintro ⟨a, ha, hac⟩
          rcases List.mem_cons.mp ha with rfl | ha
          · exact absurd hac hnb
          · exact ih1 ⟨a, ha, hac⟩
        · intro hall
          exact ih2 fun a ha => hall a (List.mem_cons_of_mem _ ha)
      · have hbc : b.connects := ⟨hs, hc⟩
        rw [set_socket_loop_connects i fd w b rest hbc]
        constructor
        · intro _
          simp [World.emit, World.opened]
        · intro hall
          exact absurd hbc (hall b (List.mem_cons_self _ _))

/-- Claim C9: over the set of open descriptors, and provided `socket()` never hands out
a descriptor that is already open, `set_socket` leaves open exactly the
descriptor it returns when some candidate connects, and leaves the set of
open descriptors as it found it when resolution fails or no candidate
connects: every socket created for a failed attempt has been closed. -/
theorem set_socket_open_descriptors (gai : Int) (res : List Attempt) (w : World)
    (hfresh : ∀ a ∈ res, a.sock ∉ w.fds) :
    ((gai = 0 ∧ ∃ a ∈ res, a.connects) →
        (set_socket gai res w).2.fds = (set_socket gai res w).1 :: w.fds ∧
          (set_socket gai res w).1 ∉ w.fds) ∧
      ((gai ≠ 0 ∨ ∀ a ∈ res, ¬ a.connects) → (set_socket gai res w).2.fds = w.fds) := by
  obtain ⟨h1, h2⟩ := set_socket_loop_fds res 0 (-1) w hfresh
  constructor
  · rintro ⟨hg, hex⟩
    have hfd := h1 hex
    simp only [set_socket, hg, ne_eq, not_true_eq_false, if_false] at hfd ⊢
    refine ⟨hfd, ?_⟩
    obtain ⟨a, ha, hac⟩ := hex
    obtain ⟨pre, post, a', hsplit, hpre, ha'⟩ : ∃ pre post a', res = pre ++ a' :: post ∧
        (∀ b ∈ pre, ¬ b.connects) ∧ a'.connects := by
      clear h1 h2 hfd hfresh
      induction res with
      | nil => cases ha
      | cons b rest ih =>
        by_cases hb : b.connects
        · exact ⟨[], rest, b, rfl, by simp, hb⟩
        · rcases List.mem_cons.mp ha with rfl | ha'
          · exact absurd hac hb
          · obtain ⟨pre, post, a', hs, hp, ha''⟩ := ih ha'
            refine ⟨b :: pre, post, a', by rw [hs]; rfl, ?_, ha''⟩
            intro c hc
            rcases List.mem_cons.mp hc with rfl | hc
            · exact hb
            · exact hp c hc
    have hret := (set_socket_loop_first pre post a' hpre ha' 0 (-1) w).1
    rw [hsplit, hret]
    exact hfresh a' (by rw [hsplit]; simp)
  · intro h
    by_cases hg : gai = 0
    · rcases h with h | h
      · exact absurd hg h
      · simpa [set_socket, hg] using h2 h
    · simp [set_socket, hg, World.emit]

/-- A concrete instance of `set_socket_open_descriptors`: descriptors 0, 1, 2 are
open, the first candidate gets descriptor 3 and does not connect, the second
gets descriptor 3 again and connects. -/
theorem set_socket_open_descriptors_witness :
    (∀ a ∈ [(⟨3, -1⟩ : Attempt), ⟨3, 0⟩], a.sock ∉ world0.fds) ∧
      ((0 : Int) = 0 ∧ ∃ a ∈ [(⟨3, -1⟩ : Attempt), ⟨3, 0⟩], a.connects) ∧
      (set_socket 0 [⟨3, -1⟩, ⟨3, 0⟩] world0).2.fds =
        (set_socket 0 [⟨3, -1⟩, ⟨3, 0⟩] world0).1 :: world0.fds ∧
      (set_socket 0 [⟨3, -1⟩, ⟨3, 0⟩] world0).1 ∉ world0.fds :=
  ⟨by decide, by decide,
    (set_socket_open_descriptors 0 [⟨3, -1⟩, ⟨3, 0⟩] world0 (by decide)).1 (by decide)⟩

/-! ## Properties of the receive loop and of `ssl` -/

/-- Claim C6 at a failing input: the peer sends `hello`, then `hi`, then closes.
Whatever the buffer and the memory after it held at first, the bytes printed
are not `hellohi`; with a zeroed buffer the loop prints `hello` and then `hillo`,
the second chunk followed by what the first chunk left in the buffer. -/
theorem recv_loop_prints_stale_bytes (stack : List Char) :
    stdout_of (recv_loop stack world0 reads_hello_hi).2.log ≠ "hellohi".toList ∧
      recv_loop (List.replicate 256 '\x00') world0 reads_hello_hi =
        (none, ⟨[0, 1, 2], SSL_ERROR_ZERO_RETURN,
          [.SSL_read 5, .stdout "hello".toList, .SSL_read 2, .stdout "hillo".toList,
            .SSL_read 0]⟩) := by
  constructor
  · have e1 : "hello".toList.take (BUF_LEN - 1) = ['h', 'e', 'l', 'l', 'o'] := by decide
    have e2 : "hi".toList.take (BUF_LEN - 1) = ['h', 'i'] := by decide
    have e3 : "hellohi".toList = ['h', 'e', 'l', 'l', 'o', 'h', 'i'] := by decide
    simp only [reads_hello_hi, recv_loop, e1, e2, e3]
    by_cases h0 : '\x00' ∈ stack.drop 5
    · simp only [cstr, List.length_cons, List.length_nil, List.cons_append, List.nil_append,
        List.mem_cons, Char.reduceEq, h0, or_true, false_or, if_true, List.drop_succ_cons,
        List.drop_zero, stdout_of, World.emit, world0]
      simp only [List.takeWhile_cons, ne_eq, Char.reduceEq, not_false_eq_true, decide_True,
        if_true, List.cons_append, List.nil_append, stdout_of, List.append_nil]
      intro h
      have hl := congrArg List.length h
      simp only [List.length_cons, List.length_append, List.length_nil] at hl
      omega
    · simp [cstr, h0, stdout_of, World.emit, world0]
  · set_option maxRecDepth 100000 in decide

set_option maxRecDepth 100000 in
/-- Claim C7 at a failing input: the handshake fails.  `ssl` returns `-1`; descriptor `3`
is still open and the log holds no `SSL_free`, no `close` and no `SSL_CTX_free`:
the socket, the session and the context are not released. -/
theorem ssl_handshake_failure_releases_nothing :
    ssl env_handshake_fails "example.test".toList "/".toList world0 =
      (.ret (-1), ⟨[3, 0, 1, 2], SSL_ERROR_SSL,
        [.SSL_CTX_new true, .SSL_new true, .socket 0 3, .connect 0 3 0, .freeaddrinfo 1,
          .SSL_set_fd 3 1, .SSL_connect (-1), .SSL_get_error (-1) SSL_ERROR_SSL,
          .stderr "Error: SSL_connect\n", .stderr "err ssl\n", .ERR_print_errors_fp]⟩) := by
  decide

set_option maxRecDepth 100000 in
/-- Claim C8 at a failing input: the first `SSL_read` returns `-1` with a transport
error.  After the loop `SSL_get_error` is handed `59`, the value returned by
`SSL_write`, and answers `SSL_ERROR_NONE`; no diagnostic is printed and `ssl`
returns `1`. -/
theorem ssl_read_error_not_classified :
    ssl env_read_fails "example.test".toList "/".toList world0 =
      (.ret 1, ⟨[0, 1, 2], SSL_ERROR_SYSCALL,
        [.SSL_CTX_new true, .SSL_new true, .socket 0 3, .connect 0 3 0, .freeaddrinfo 1,
          .SSL_set_fd 3 1, .SSL_connect 1,
          .stdout "SSL connection using TLS_AES_256_GCM_SHA384\n".toList,
          .SSL_get_peer_certificate true, .stdout "CN=example.test".toList, .stdout "\n".toList,
          .malloc,
          .SSL_write "GET / HTTP/1.1 \r\nHost: example.test \r\nConnection: close\r\n\r\n".toList 59,
          .free, .SSL_read (-1), .SSL_get_error 59 SSL_ERROR_NONE, .SSL_free, .close 3,
          .X509_free true, .SSL_CTX_free]⟩) := by
  decide

/-- When no candidate connects, the value the loop returns is `-1` or a descriptor
that is not open. -/
theorem set_socket_loop_all_fail (res : List Attempt) (hall : ∀ a ∈ res, ¬ a.connects) :
    ∀ (i : Nat) (fd : Int) (w : World), (fd = -1 ∨ fd ∉ w.fds) →
      (set_socket_loop i fd w res).1 = -1 ∨
        (set_socket_loop i fd w res).1 ∉ (set_socket_loop i fd w res).2.fds := by
  induction res with
  | nil =>
    intro i fd w h
    simpa [set_socket_loop, World.emit] using h
  | cons b rest ih =>
    intro i fd w _
    have hb : ¬ b.connects := hall b (List.mem_cons_self _ _)
    have hrest : ∀ a ∈ rest, ¬ a.connects := fun a ha => hall a (List.mem_cons_of_mem _ ha)
    by_cases hs : b.sock = -1
    · rw [set_socket_loop_socket_fails i fd w b rest hs]
      exact ih hrest _ _ _ (Or.inl rfl)
    · have hc : b.conn = -1 := by
        by_contra hc
        exact hb ⟨hs, hc⟩
      rw [set_socket_loop_connect_fails i fd w b rest hs hc]
      refine ih hrest _ _ _ (Or.inr ?_)
      simp [World.emit, World.opened, World.closed]



end Sockets
